import Mathlib

/-!
Shallow embedding of `pkg/papi/propertyversion.go` from the
AkamaiOPEN-edgegrid-golang repository: the property-version endpoints of the
PAPI client (list versions, latest version, one version, create version),
together with the validation rules and URL/header construction they use.

HTTP transport is represented by an oracle function from the built request to
an execution result; each operation returns both its Go result
(`*Response, error` becomes `Except PapiError β`) and the request it
dispatched, if any.  Go `int` fields are embedded as `Int` (the claims under
study never reach machine-integer overflow).
-/

namespace PropertyVersion

/-- ozzo-validation `Required` rule applied to a string field: it fails exactly
on the zero value `""`, with message "cannot be blank". -/
def requiredStringRule (s : String) : Option String :=
  if s = "" then some "cannot be blank" else none

/-- ozzo-validation `Required` rule applied to an int field: it fails exactly
on the zero value `0`. -/
def requiredIntRule (n : Int) : Option String :=
  if n = 0 then some "cannot be blank" else none

/-- ozzo-validation `In(vs...)` rule on a string field: skipped on the empty
value, otherwise the value must be one of `vs`. -/
def inRule (allowed : List String) (s : String) : Option String :=
  if s = "" then none
  else if allowed.contains s then none
  else some "must be a valid value"

/-- Rendering of a non-nil `validation.Errors` value, as produced by
`err.Error()` for a nested struct rule. -/
def renderErrors (fails : List (String × String)) : String :=
  String.intercalate "; " (fails.map (fun fe => fe.1 ++ ": " ++ fe.2))

/-- ozzo-validation rule for a nested `Validatable` field: the field fails iff
its own `Validate` returns a non-nil error. -/
def nestedRule (inner : Option (List (String × String))) : Option String :=
  inner.map renderErrors

/-- `validation.Errors{...}.Filter()`: keep the fields whose rule produced an
error; the result is nil (`none`) iff no field failed. -/
def filterErrors (es : List (String × Option String)) :
    Option (List (String × String)) :=
  let fails := es.filterMap (fun fe => fe.2.map (fun m => (fe.1, m)))
  if fails.isEmpty then none else some fails

/-- `GetPropertyVersionsRequest`: path and query params used for listing
property versions. -/
structure GetPropertyVersionsRequest where
  PropertyID : String
  ContractID : String
  GroupID : String
  Limit : Int
  Offset : Int
  deriving Repr, DecidableEq

/-- `PropertyVersionGetItem`: detailed information about a specific property
version returned in GET. -/
structure PropertyVersionGetItem where
  Etag : String
  Note : String
  ProductID : String
  ProductionStatus : String
  PropertyVersion : Int
  RuleFormat : String
  StagingStatus : String
  UpdatedByUser : String
  UpdatedDate : String
  deriving Repr, DecidableEq

/-- `PropertyVersionItems`: collection of property version details. -/
structure PropertyVersionItems where
  Items : List PropertyVersionGetItem
  deriving Repr, DecidableEq

/-- `GetPropertyVersionsResponse`: GET response returned while fetching
property versions or a specific version. -/
structure GetPropertyVersionsResponse where
  PropertyID : String
  PropertyName : String
  AccountID : String
  ContractID : String
  GroupID : String
  AssetID : String
  Versions : PropertyVersionItems
  deriving Repr, DecidableEq

/-- `GetPropertyVersionRequest`: path and query params used for fetching a
specific property version. -/
structure GetPropertyVersionRequest where
  PropertyID : String
  PropertyVersion : Int
  ContractID : String
  GroupID : String
  deriving Repr, DecidableEq

/-- `PropertyVersionCreate`: request body used in the POST /versions request. -/
structure PropertyVersionCreate where
  CreateFromVersion : Int
  CreateFromVersionEtag : String
  deriving Repr, DecidableEq

/-- `CreatePropertyVersionRequest`: path and query params, as well as request
body, for the POST /versions request. -/
structure CreatePropertyVersionRequest where
  PropertyID : String
  ContractID : String
  GroupID : String
  Version : PropertyVersionCreate
  deriving Repr, DecidableEq

/-- `CreatePropertyVersionResponse`: link returned after creating a new
property version, and the number of that version. -/
structure CreatePropertyVersionResponse where
  VersionLink : String
  PropertyVersion : Int
  deriving Repr, DecidableEq

/-- `GetLatestVersionRequest`: params for the GET /versions/latest request. -/
structure GetLatestVersionRequest where
  PropertyID : String
  ActivatedOn : String
  ContractID : String
  GroupID : String
  deriving Repr, DecidableEq

def VersionProduction : String := "PRODUCTION"

def VersionStaging : String := "STAGING"

/-- `GetPropertyVersionsRequest.Validate`. -/
def GetPropertyVersionsRequest.Validate (v : GetPropertyVersionsRequest) :
    Option (List (String × String)) :=
  filterErrors [("PropertyID", requiredStringRule v.PropertyID)]

/-- `GetPropertyVersionRequest.Validate`. -/
def GetPropertyVersionRequest.Validate (v : GetPropertyVersionRequest) :
    Option (List (String × String)) :=
  filterErrors
    [("PropertyID", requiredStringRule v.PropertyID),
     ("PropertyVersion", requiredIntRule v.PropertyVersion)]

/-- `PropertyVersionCreate.Validate`. -/
def PropertyVersionCreate.Validate (v : PropertyVersionCreate) :
    Option (List (String × String)) :=
  filterErrors [("CreateFromVersion", requiredIntRule v.CreateFromVersion)]

/-- `CreatePropertyVersionRequest.Validate`. -/
def CreatePropertyVersionRequest.Validate (v : CreatePropertyVersionRequest) :
    Option (List (String × String)) :=
  filterErrors
    [("PropertyID", requiredStringRule v.PropertyID),
     ("Version", nestedRule v.Version.Validate)]

/-- `GetLatestVersionRequest.Validate`. -/
def GetLatestVersionRequest.Validate (v : GetLatestVersionRequest) :
    Option (List (String × String)) :=
  filterErrors
    [("PropertyID", requiredStringRule v.PropertyID),
     ("ActivatedOn", inRule [VersionProduction, VersionStaging] v.ActivatedOn)]

/-- Modelled from the spec: the domain errors an operation can return.
`structValidation` wraps `ErrStructValidation` around the field errors;
`requestFailed` wraps a transport (`Exec`) error; `notFound` wraps
`session.ErrNotFound` around the request URL; `apiError` is the generic API
error built by `session.NewAPIError` from a response (the `session` package is
outside the source file); `invalidLocation` wraps `tools.ErrInvalidLocation`. -/
inductive PapiError where
  | structValidation (fields : List (String × String))
  | requestFailed (op : String) (msg : String)
  | notFound (url : String)
  | apiError (status : Nat)
  | invalidLocation (msg : String)
  deriving Repr, DecidableEq

/-- An outbound HTTP request as built by the operations: method, URL, the
headers set on it, and its body (`none` embeds Go's nil body). -/
structure HttpRequest where
  method : String
  url : String
  headers : List (String × String)
  body : Option String
  deriving Repr, DecidableEq

/-- Modelled from the spec: the outcome of `session.Exec` (outside the source
file): either a transport error, or a response with a status code and the
body decoded into the typed output struct. -/
inductive ExecResult (β : Type) where
  | execError (msg : String)
  | response (statusCode : Nat) (body : β)
  deriving Repr

/-- The Go pair `(*Response, error)` together with the request the operation
dispatched through the transport, if any. -/
structure OpResult (β : Type) where
  result : Except PapiError β
  dispatched : Option HttpRequest
  deriving Repr

/-- Modelled from the spec: the `papi` client struct (outside the source file)
as far as these operations read it: the `usePrefixes` ID-prefix preference
flag rendered into the "PAPI-Use-Prefixes" header. -/
structure Papi where
  usePrefixes : Bool
  deriving Repr, DecidableEq

/-- `cast.ToString` on a bool: "true" or "false". -/
def castToString (b : Bool) : String :=
  if b then "true" else "false"

/-- The request built by `http.NewRequestWithContext(ctx, method, url, nil)`
followed by `req.Header.Set("PAPI-Use-Prefixes", cast.ToString(p.usePrefixes))`. -/
def builtRequest (p : Papi) (method : String) (url : String) : HttpRequest :=
  { method := method
    url := url
    headers := [("PAPI-Use-Prefixes", castToString p.usePrefixes)]
    body := none }

/-- URL built by `GetPropertyVersions`: the Sprintf base followed by the two
conditional query-parameter appends. -/
def getPropertyVersionsURL (params : GetPropertyVersionsRequest) : String :=
  let base := "/papi/v1/properties/" ++ params.PropertyID ++
    "/versions?contractId=" ++ params.ContractID ++ "&groupId=" ++ params.GroupID
  let url1 := if params.Limit ≠ 0 then base ++ "&limit=" ++ toString params.Limit else base
  if params.Offset ≠ 0 then url1 ++ "&offset=" ++ toString params.Offset else url1

/-- URL built by `GetLatestVersion`: the Sprintf base followed by the
conditional activatedOn append. -/
def getLatestVersionURL (params : GetLatestVersionRequest) : String :=
  let base := "/papi/v1/properties/" ++ params.PropertyID ++
    "/versions/latest?contractId=" ++ params.ContractID ++ "&groupId=" ++ params.GroupID
  if params.ActivatedOn ≠ "" then base ++ "&activatedOn=" ++ params.ActivatedOn else base

/-- URL built by `GetPropertyVersion`. -/
def getPropertyVersionURL (params : GetPropertyVersionRequest) : String :=
  "/papi/v1/properties/" ++ params.PropertyID ++ "/versions/" ++
    toString params.PropertyVersion ++ "?contractId=" ++ params.ContractID ++
    "&groupId=" ++ params.GroupID

/-- URL built by `CreatePropertyVersion`. -/
def createPropertyVersionURL (request : CreatePropertyVersionRequest) : String :=
  "/papi/v1/properties/" ++ request.PropertyID ++ "/versions?contractId=" ++
    request.ContractID ++ "&groupId=" ++ request.GroupID

/-- `GetPropertyVersions`: validate, build the GET request, dispatch it, and
branch on the status code (404 → not-found, non-200 → generic API error,
200 → decoded response). -/
def GetPropertyVersions (p : Papi) (params : GetPropertyVersionsRequest)
    (exec : HttpRequest → ExecResult GetPropertyVersionsResponse) :
    OpResult GetPropertyVersionsResponse :=
  match params.Validate with
  | some fields => ⟨.error (.structValidation fields), none⟩
  | none =>
    let getURL := getPropertyVersionsURL params
    let req := builtRequest p "GET" getURL
    match exec req with
    | .execError msg => ⟨.error (.requestFailed "getpropertyversions" msg), some req⟩
    | .response status versions =>
      if status = 404 then ⟨.error (.notFound getURL), some req⟩
      else if status ≠ 200 then ⟨.error (.apiError status), some req⟩
      else ⟨.ok versions, some req⟩

/-- `GetLatestVersion`: same control flow as `GetPropertyVersions` over the
latest-version URL. -/
def GetLatestVersion (p : Papi) (params : GetLatestVersionRequest)
    (exec : HttpRequest → ExecResult GetPropertyVersionsResponse) :
    OpResult GetPropertyVersionsResponse :=
  match params.Validate with
  | some fields => ⟨.error (.structValidation fields), none⟩
  | none =>
    let getURL := getLatestVersionURL params
    let req := builtRequest p "GET" getURL
    match exec req with
    | .execError msg => ⟨.error (.requestFailed "getlatestversion" msg), some req⟩
    | .response status version =>
      if status = 404 then ⟨.error (.notFound getURL), some req⟩
      else if status ≠ 200 then ⟨.error (.apiError status), some req⟩
      else ⟨.ok version, some req⟩

/-- `GetPropertyVersion`: same control flow over the single-version URL. -/
def GetPropertyVersion (p : Papi) (params : GetPropertyVersionRequest)
    (exec : HttpRequest → ExecResult GetPropertyVersionsResponse) :
    OpResult GetPropertyVersionsResponse :=
  match params.Validate with
  | some fields => ⟨.error (.structValidation fields), none⟩
  | none =>
    let getURL := getPropertyVersionURL params
    let req := builtRequest p "GET" getURL
    match exec req with
    | .execError msg => ⟨.error (.requestFailed "getpropertyversion" msg), some req⟩
    | .response status versions =>
      if status = 404 then ⟨.error (.notFound getURL), some req⟩
      else if status ≠ 200 then ⟨.error (.apiError status), some req⟩
      else ⟨.ok versions, some req⟩

/-- Decimal digits of a character list, when it is non-empty and all digits. -/
def parseDigits (cs : List Char) : Option Nat :=
  if cs.isEmpty then none
  else if cs.all Char.isDigit then
    some (cs.foldl (fun n c => n * 10 + (c.toNat - 48)) 0)
  else none

/-- `strconv.Atoi`: an optional sign followed by at least one decimal digit;
anything else is a syntax error. -/
def Atoi (s : String) : Except String Int :=
  let signed : Bool × List Char :=
    match s.toList with
    | List.cons c rest =>
      if c = '-' then (true, rest)
      else if c = '+' then (false, rest)
      else (false, s.toList)
    | List.nil => (false, [])
  match parseDigits signed.2 with
  | some n => .ok (if signed.1 then -(n : Int) else (n : Int))
  | none => .error "invalid syntax"

/-- Character lists split on a separator character; mirrors splitting a path
on a delimiter, empty segments kept. -/
def splitCharsOn (sep : Char) : List Char → List (List Char)
  | [] => [[]]
  | c :: cs =>
    if c = sep then [] :: splitCharsOn sep cs
    else
      match splitCharsOn sep cs with
      | [] => [[c]]
      | h :: t => (c :: h) :: t

/-- Modelled from the spec: `tools.FetchIDFromLocation` (package
`pkg/papi/tools`, outside the source file) extracts the ID segment from a
location-style link — the last `/`-separated segment of the link's path, the
query string excluded — and fails when the link yields no ID segment. -/
def FetchIDFromLocation (loc : String) : Except String String :=
  let path := loc.toList.takeWhile (fun c => c ≠ '?')
  match (splitCharsOn '/' path).getLast? with
  | none => .error "no ID segment in location"
  | some seg =>
    if seg.isEmpty then .error "no ID segment in location"
    else .ok (String.mk seg)

/-- `CreatePropertyVersion`: validate, build the POST request with a nil body,
dispatch it; any status other than 201 is a generic API error; on 201 the
version number is parsed out of the decoded `versionLink`. -/
def CreatePropertyVersion (p : Papi) (request : CreatePropertyVersionRequest)
    (exec : HttpRequest → ExecResult CreatePropertyVersionResponse) :
    OpResult CreatePropertyVersionResponse :=
  match request.Validate with
  | some fields => ⟨.error (.structValidation fields), none⟩
  | none =>
    let getURL := createPropertyVersionURL request
    let req := builtRequest p "POST" getURL
    match exec req with
    | .execError msg => ⟨.error (.requestFailed "createpropertyversion" msg), some req⟩
    | .response status version =>
      if status ≠ 201 then ⟨.error (.apiError status), some req⟩
      else
        match FetchIDFromLocation version.VersionLink with
        | .error e => ⟨.error (.invalidLocation e), some req⟩
        | .ok propertyVersion =>
          match Atoi propertyVersion with
          | .error _ =>
            ⟨.error (.invalidLocation ("version should be a number: " ++ propertyVersion)),
              some req⟩
          | .ok versionNumber =>
            ⟨.ok { version with PropertyVersion := versionNumber }, some req⟩

/-- Whether a result is an error wrapping `ErrStructValidation`. -/
def isStructValidationErr {β : Type} : Except PapiError β → Bool
  | .error (.structValidation _) => true
  | _ => false

/-- Whether a result is an error wrapping `session.ErrNotFound`. -/
def isNotFoundErr {β : Type} : Except PapiError β → Bool
  | .error (.notFound _) => true
  | _ => false

/-- Whether a result is an error wrapping `tools.ErrInvalidLocation`. -/
def isInvalidLocationErr {β : Type} : Except PapiError β → Bool
  | .error (.invalidLocation _) => true
  | _ => false

/-! Concrete fixtures used by witnesses and counterexamples. -/

def samplePapi : Papi := ⟨true⟩

def sampleVersionsRequest : GetPropertyVersionsRequest :=
  ⟨"prp_175780", "ctr_1-1TJZH5", "grp_15225", 0, 0⟩

def sampleLatestRequest : GetLatestVersionRequest :=
  ⟨"prp_175780", "", "ctr_1-1TJZH5", "grp_15225"⟩

def sampleVersionRequest : GetPropertyVersionRequest :=
  ⟨"prp_175780", 3, "ctr_1-1TJZH5", "grp_15225"⟩

def sampleCreateRequest : CreatePropertyVersionRequest :=
  ⟨"prp_175780", "ctr_1-1TJZH5", "grp_15225", ⟨1, ""⟩⟩

def sampleGetBody : GetPropertyVersionsResponse :=
  ⟨"prp_175780", "dev.example.com", "act_1-1TJZFB", "ctr_1-1TJZH5", "grp_15225", "aid_101", ⟨[]⟩⟩

def sampleCreateBody : CreatePropertyVersionResponse :=
  ⟨"/papi/v1/properties/prp_175780/versions/2?contractId=ctr_1-1TJZH5&groupId=grp_15225", 0⟩

def sampleBadLinkBody : CreatePropertyVersionResponse :=
  ⟨"/papi/v1/properties/prp_175780/versions/abc", 0⟩

def execGet404 : HttpRequest → ExecResult GetPropertyVersionsResponse :=
  fun _ => .response 404 sampleGetBody

def execCreate404 : HttpRequest → ExecResult CreatePropertyVersionResponse :=
  fun _ => .response 404 sampleCreateBody

def execCreate201 : HttpRequest → ExecResult CreatePropertyVersionResponse :=
  fun _ => .response 201 sampleCreateBody

def execCreate201Bad : HttpRequest → ExecResult CreatePropertyVersionResponse :=
  fun _ => .response 201 sampleBadLinkBody

/-! Helper lemmas shared by the claim theorems. -/

/-- `Errors.Filter` on a list whose first field already failed is non-nil. -/
theorem filterErrors_head_some (f m : String) (rest : List (String × Option String)) :
    filterErrors ((f, some m) :: rest) =
      some ((f, m) :: rest.filterMap (fun fe => fe.2.map (fun x => (fe.1, x)))) := by
  simp [filterErrors]

/-- After successful validation, `GetPropertyVersions` dispatches exactly the
built GET request, whatever the transport returns. -/
theorem getPropertyVersions_dispatched (p : Papi) (r : GetPropertyVersionsRequest)
    (e : HttpRequest → ExecResult GetPropertyVersionsResponse) (h : r.Validate = none) :
    (GetPropertyVersions p r e).dispatched =
      some (builtRequest p "GET" (getPropertyVersionsURL r)) := by
  cases he : e (builtRequest p "GET" (getPropertyVersionsURL r)) with
  | execError m => simp only [GetPropertyVersions, h, he]
  | response st b =>
    simp only [GetPropertyVersions, h, he]
    split
    · rfl
    · split <;> rfl

/-- After successful validation, `GetLatestVersion` dispatches exactly the
built GET request, whatever the transport returns. -/
theorem getLatestVersion_dispatched (p : Papi) (r : GetLatestVersionRequest)
    (e : HttpRequest → ExecResult GetPropertyVersionsResponse) (h : r.Validate = none) :
    (GetLatestVersion p r e).dispatched =
      some (builtRequest p "GET" (getLatestVersionURL r)) := by
  cases he : e (builtRequest p "GET" (getLatestVersionURL r)) with
  | execError m => simp only [GetLatestVersion, h, he]
  | response st b =>
    simp only [GetLatestVersion, h, he]
    split
    · rfl
    · split <;> rfl

/-- After successful validation, `GetPropertyVersion` dispatches exactly the
built GET request, whatever the transport returns. -/
theorem getPropertyVersion_dispatched (p : Papi) (r : GetPropertyVersionRequest)
    (e : HttpRequest → ExecResult GetPropertyVersionsResponse) (h : r.Validate = none) :
    (GetPropertyVersion p r e).dispatched =
      some (builtRequest p "GET" (getPropertyVersionURL r)) := by
  cases he : e (builtRequest p "GET" (getPropertyVersionURL r)) with
  | execError m => simp only [GetPropertyVersion, h, he]
  | response st b =>
    simp only [GetPropertyVersion, h, he]
    split
    · rfl
    · split <;> rfl

/-- After successful validation, `CreatePropertyVersion` dispatches exactly the
built POST request, whatever the transport returns. -/
theorem createPropertyVersion_dispatched (p : Papi) (r : CreatePropertyVersionRequest)
    (e : HttpRequest → ExecResult CreatePropertyVersionResponse) (h : r.Validate = none) :
    (CreatePropertyVersion p r e).dispatched =
      some (builtRequest p "POST" (createPropertyVersionURL r)) := by
  simp only [CreatePropertyVersion, h]
  cases e (builtRequest p "POST" (createPropertyVersionURL r)) with
  | execError m => rfl
  | response st b =>
    simp only
    split
    · rfl
    · split
      · rfl
      · split <;> rfl

/-! Claim theorems. -/

/-- C1: for each of `GetPropertyVersions`, `GetLatestVersion` and
`GetPropertyVersion`, whenever the transport `Exec` call returns without
error: status 404 yields a nil response and an error wrapping
`session.ErrNotFound`; any other status different from 200 yields a nil
response and the generic API error; and status 200 yields the decoded
`GetPropertyVersionsResponse` with a nil error. -/
theorem get_operations_status_branching
    (p : Papi) (status : Nat)
    (r1 : GetPropertyVersionsRequest)
    (e1 : HttpRequest → ExecResult GetPropertyVersionsResponse)
    (b1 : GetPropertyVersionsResponse)
    (h1 : r1.Validate = none)
    (x1 : e1 (builtRequest p "GET" (getPropertyVersionsURL r1)) = .response status b1)
    (r2 : GetLatestVersionRequest)
    (e2 : HttpRequest → ExecResult GetPropertyVersionsResponse)
    (b2 : GetPropertyVersionsResponse)
    (h2 : r2.Validate = none)
    (x2 : e2 (builtRequest p "GET" (getLatestVersionURL r2)) = .response status b2)
    (r3 : GetPropertyVersionRequest)
    (e3 : HttpRequest → ExecResult GetPropertyVersionsResponse)
    (b3 : GetPropertyVersionsResponse)
    (h3 : r3.Validate = none)
    (x3 : e3 (builtRequest p "GET" (getPropertyVersionURL r3)) = .response status b3) :
    (GetPropertyVersions p r1 e1).result =
      (if status = 404 then .error (.notFound (getPropertyVersionsURL r1))
       else if status ≠ 200 then .error (.apiError status) else .ok b1) ∧
    (GetLatestVersion p r2 e2).result =
      (if status = 404 then .error (.notFound (getLatestVersionURL r2))
       else if status ≠ 200 then .error (.apiError status) else .ok b2) ∧
    (GetPropertyVersion p r3 e3).result =
      (if status = 404 then .error (.notFound (getPropertyVersionURL r3))
       else if status ≠ 200 then .error (.apiError status) else .ok b3) := by
  refine ⟨?_, ?_, ?_⟩
  · simp only [GetPropertyVersions, h1, x1]
    split
    · rfl
    · split <;> rfl
  · simp only [GetLatestVersion, h2, x2]
    split
    · rfl
    · split <;> rfl
  · simp only [GetPropertyVersion, h3, x3]
    split
    · rfl
    · split <;> rfl

/-- Witness for C1 at status 404 on concrete requests. -/
theorem get_operations_status_branching_witness :
    sampleVersionsRequest.Validate = none ∧
    sampleLatestRequest.Validate = none ∧
    sampleVersionRequest.Validate = none ∧
    ((GetPropertyVersions samplePapi sampleVersionsRequest execGet404).result =
      (if 404 = 404 then .error (.notFound (getPropertyVersionsURL sampleVersionsRequest))
       else if 404 ≠ 200 then .error (.apiError 404) else .ok sampleGetBody) ∧
    (GetLatestVersion samplePapi sampleLatestRequest execGet404).result =
      (if 404 = 404 then .error (.notFound (getLatestVersionURL sampleLatestRequest))
       else if 404 ≠ 200 then .error (.apiError 404) else .ok sampleGetBody) ∧
    (GetPropertyVersion samplePapi sampleVersionRequest execGet404).result =
      (if 404 = 404 then .error (.notFound (getPropertyVersionURL sampleVersionRequest))
       else if 404 ≠ 200 then .error (.apiError 404) else .ok sampleGetBody)) :=
  ⟨rfl, rfl, rfl,
    get_operations_status_branching samplePapi 404
      sampleVersionsRequest execGet404 sampleGetBody rfl rfl
      sampleLatestRequest execGet404 sampleGetBody rfl rfl
      sampleVersionRequest execGet404 sampleGetBody rfl rfl⟩

/-- C2 counterexample: `CreatePropertyVersion` does not special-case 404.
On a 404 response to a valid request it returns the generic API error, not an
error wrapping `session.ErrNotFound`. -/
theorem createPropertyVersion_404_counterexample :
    (CreatePropertyVersion samplePapi sampleCreateRequest execCreate404).result =
      .error (.apiError 404) ∧
    isNotFoundErr (CreatePropertyVersion samplePapi sampleCreateRequest execCreate404).result =
      false := ⟨rfl, rfl⟩

/-- C2 (amended): when the transport `Exec` call succeeds, every status code
other than 201 — 404 included — makes `CreatePropertyVersion` return a nil
response and the generic API error; there is no separate not-found branch. -/
theorem createPropertyVersion_non201_apiError
    (p : Papi) (r : CreatePropertyVersionRequest)
    (e : HttpRequest → ExecResult CreatePropertyVersionResponse)
    (status : Nat) (b : CreatePropertyVersionResponse)
    (h : r.Validate = none)
    (hx : e (builtRequest p "POST" (createPropertyVersionURL r)) = .response status b)
    (hs : status ≠ 201) :
    (CreatePropertyVersion p r e).result = .error (.apiError status) := by
  simp only [CreatePropertyVersion, h, hx]
  rw [if_pos hs]

/-- Witness for the amended C2 at status 404. -/
theorem createPropertyVersion_non201_apiError_witness :
    sampleCreateRequest.Validate = none ∧ (404 : Nat) ≠ 201 ∧
    (CreatePropertyVersion samplePapi sampleCreateRequest execCreate404).result =
      .error (.apiError 404) :=
  ⟨rfl, by decide,
    createPropertyVersion_non201_apiError samplePapi sampleCreateRequest execCreate404
      404 sampleCreateBody rfl rfl (by decide)⟩

def emptyVersionsRequest : GetPropertyVersionsRequest := ⟨"", "ctr_1", "grp_1", 0, 0⟩

def emptyLatestRequest : GetLatestVersionRequest := ⟨"", "", "ctr_1", "grp_1"⟩

def emptyVersionRequest : GetPropertyVersionRequest := ⟨"", 3, "ctr_1", "grp_1"⟩

def emptyCreateRequest : CreatePropertyVersionRequest := ⟨"", "ctr_1", "grp_1", ⟨1, ""⟩⟩

/-- C3: a request whose required `PropertyID` field is missing makes each of
the four operations return a nil response with an error wrapping
`ErrStructValidation`, and no HTTP request is built or dispatched through the
transport. -/
theorem empty_propertyID_rejected
    (p : Papi)
    (r1 : GetPropertyVersionsRequest)
    (e1 : HttpRequest → ExecResult GetPropertyVersionsResponse)
    (r2 : GetLatestVersionRequest)
    (e2 : HttpRequest → ExecResult GetPropertyVersionsResponse)
    (r3 : GetPropertyVersionRequest)
    (e3 : HttpRequest → ExecResult GetPropertyVersionsResponse)
    (r4 : CreatePropertyVersionRequest)
    (e4 : HttpRequest → ExecResult CreatePropertyVersionResponse)
    (h1 : r1.PropertyID = "") (h2 : r2.PropertyID = "")
    (h3 : r3.PropertyID = "") (h4 : r4.PropertyID = "") :
    (isStructValidationErr (GetPropertyVersions p r1 e1).result = true ∧
      (GetPropertyVersions p r1 e1).dispatched = none) ∧
    (isStructValidationErr (GetLatestVersion p r2 e2).result = true ∧
      (GetLatestVersion p r2 e2).dispatched = none) ∧
    (isStructValidationErr (GetPropertyVersion p r3 e3).result = true ∧
      (GetPropertyVersion p r3 e3).dispatched = none) ∧
    (isStructValidationErr (CreatePropertyVersion p r4 e4).result = true ∧
      (CreatePropertyVersion p r4 e4).dispatched = none) := by
  have v1 : r1.Validate.isSome := by
    simp [GetPropertyVersionsRequest.Validate, requiredStringRule, h1, filterErrors]
  have v2 : r2.Validate.isSome := by
    simp [GetLatestVersionRequest.Validate, requiredStringRule, h2, filterErrors]
  have v3 : r3.Validate.isSome := by
    simp [GetPropertyVersionRequest.Validate, requiredStringRule, h3, filterErrors]
  have v4 : r4.Validate.isSome := by
    simp [CreatePropertyVersionRequest.Validate, requiredStringRule, h4, filterErrors]
  obtain ⟨f1, v1⟩ := Option.isSome_iff_exists.mp v1
  obtain ⟨f2, v2⟩ := Option.isSome_iff_exists.mp v2
  obtain ⟨f3, v3⟩ := Option.isSome_iff_exists.mp v3
  obtain ⟨f4, v4⟩ := Option.isSome_iff_exists.mp v4
  refine ⟨⟨?_, ?_⟩, ⟨?_, ?_⟩, ⟨?_, ?_⟩, ⟨?_, ?_⟩⟩ <;>
    simp [GetPropertyVersions, GetLatestVersion, GetPropertyVersion, CreatePropertyVersion,
      v1, v2, v3, v4, isStructValidationErr]

/-- Witness for C3 on concrete requests with an empty PropertyID. -/
theorem empty_propertyID_rejected_witness :
    emptyVersionsRequest.PropertyID = "" ∧ emptyLatestRequest.PropertyID = "" ∧
    emptyVersionRequest.PropertyID = "" ∧ emptyCreateRequest.PropertyID = "" ∧
    ((isStructValidationErr (GetPropertyVersions samplePapi emptyVersionsRequest execGet404).result = true ∧
      (GetPropertyVersions samplePapi emptyVersionsRequest execGet404).dispatched = none) ∧
    (isStructValidationErr (GetLatestVersion samplePapi emptyLatestRequest execGet404).result = true ∧
      (GetLatestVersion samplePapi emptyLatestRequest execGet404).dispatched = none) ∧
    (isStructValidationErr (GetPropertyVersion samplePapi emptyVersionRequest execGet404).result = true ∧
      (GetPropertyVersion samplePapi emptyVersionRequest execGet404).dispatched = none) ∧
    (isStructValidationErr (CreatePropertyVersion samplePapi emptyCreateRequest execCreate404).result = true ∧
      (CreatePropertyVersion samplePapi emptyCreateRequest execCreate404).dispatched = none)) :=
  ⟨rfl, rfl, rfl, rfl,
    empty_propertyID_rejected samplePapi emptyVersionsRequest execGet404
      emptyLatestRequest execGet404 emptyVersionRequest execGet404
      emptyCreateRequest execCreate404 rfl rfl rfl rfl⟩

/-- C4: the listing URL is the base path with contractId and groupId always
present (even when empty), "&limit=..." appended iff Limit is non-zero and
"&offset=..." appended iff Offset is non-zero; the latest-version URL gets
"&activatedOn=..." appended iff ActivatedOn is non-empty. -/
theorem url_includes_optional_params
    (g : GetPropertyVersionsRequest) (l : GetLatestVersionRequest) :
    getPropertyVersionsURL g =
      "/papi/v1/properties/" ++ g.PropertyID ++ "/versions?contractId=" ++ g.ContractID ++
        "&groupId=" ++ g.GroupID ++
        (if g.Limit ≠ 0 then "&limit=" ++ toString g.Limit else "") ++
        (if g.Offset ≠ 0 then "&offset=" ++ toString g.Offset else "") ∧
    getLatestVersionURL l =
      "/papi/v1/properties/" ++ l.PropertyID ++ "/versions/latest?contractId=" ++ l.ContractID ++
        "&groupId=" ++ l.GroupID ++
        (if l.ActivatedOn ≠ "" then "&activatedOn=" ++ l.ActivatedOn else "") := by
  constructor
  · rcases eq_or_ne g.Limit 0 with hL | hL <;> rcases eq_or_ne g.Offset 0 with hO | hO <;>
      simp [getPropertyVersionsURL, hL, hO, String.append_assoc]
  · rcases eq_or_ne l.ActivatedOn "" with hA | hA <;>
      simp [getLatestVersionURL, hA, String.append_assoc]

/-- C5: when `CreatePropertyVersion` gets a 201 whose versionLink cannot be
parsed into a numeric version — no ID segment, or a non-decimal segment — it
returns a nil response and an error wrapping `tools.ErrInvalidLocation`. -/
theorem create_invalid_location
    (p : Papi) (r : CreatePropertyVersionRequest)
    (e : HttpRequest → ExecResult CreatePropertyVersionResponse)
    (b : CreatePropertyVersionResponse)
    (h : r.Validate = none)
    (hx : e (builtRequest p "POST" (createPropertyVersionURL r)) = .response 201 b)
    (hbad : (∃ m, FetchIDFromLocation b.VersionLink = Except.error m) ∨
      ∃ s, FetchIDFromLocation b.VersionLink = Except.ok s ∧
        ∃ m, Atoi s = Except.error m) :
    isInvalidLocationErr (CreatePropertyVersion p r e).result = true := by
  rcases hbad with ⟨m, hm⟩ | ⟨s, hs, m2, hm2⟩
  · simp [CreatePropertyVersion, h, hx, hm, isInvalidLocationErr]
  · simp [CreatePropertyVersion, h, hx, hs, hm2, isInvalidLocationErr]

/-- Witness for C5: a 201 whose link's ID segment "abc" is not decimal. -/
theorem create_invalid_location_witness :
    sampleCreateRequest.Validate = none ∧
    FetchIDFromLocation sampleBadLinkBody.VersionLink = Except.ok "abc" ∧
    Atoi "abc" = Except.error "invalid syntax" ∧
    isInvalidLocationErr
      (CreatePropertyVersion samplePapi sampleCreateRequest execCreate201Bad).result = true :=
  ⟨rfl, rfl, rfl,
    create_invalid_location samplePapi sampleCreateRequest execCreate201Bad
      sampleBadLinkBody rfl rfl
      (Or.inr ⟨"abc", rfl, "invalid syntax", rfl⟩)⟩

/-- C6: when `CreatePropertyVersion` gets a 201 whose versionLink parses to a
numeric ID, it returns a response whose PropertyVersion is the parsed integer
and whose VersionLink is the link decoded from the response body, with nil
error. -/
theorem create_success
    (p : Papi) (r : CreatePropertyVersionRequest)
    (e : HttpRequest → ExecResult CreatePropertyVersionResponse)
    (b : CreatePropertyVersionResponse) (s : String) (n : Int)
    (h : r.Validate = none)
    (hx : e (builtRequest p "POST" (createPropertyVersionURL r)) = .response 201 b)
    (hf : FetchIDFromLocation b.VersionLink = Except.ok s)
    (ha : Atoi s = Except.ok n) :
    (CreatePropertyVersion p r e).result =
      Except.ok { VersionLink := b.VersionLink, PropertyVersion := n } := by
  simp [CreatePropertyVersion, h, hx, hf, ha]

/-- Witness for C6: a 201 whose link ends in ID segment "2". -/
theorem create_success_witness :
    sampleCreateRequest.Validate = none ∧
    FetchIDFromLocation sampleCreateBody.VersionLink = Except.ok "2" ∧
    Atoi "2" = Except.ok 2 ∧
    (CreatePropertyVersion samplePapi sampleCreateRequest execCreate201).result =
      Except.ok { VersionLink := sampleCreateBody.VersionLink, PropertyVersion := 2 } :=
  ⟨rfl, rfl, rfl,
    create_success samplePapi sampleCreateRequest execCreate201
      sampleCreateBody "2" 2 rfl rfl rfl rfl⟩

/-- C7: after validation passes, each of the four operations dispatches a
request whose header list is exactly "PAPI-Use-Prefixes" bound to the string
rendering of the client's usePrefixes flag. -/
theorem header_use_prefixes
    (p : Papi)
    (r1 : GetPropertyVersionsRequest)
    (e1 : HttpRequest → ExecResult GetPropertyVersionsResponse)
    (r2 : GetLatestVersionRequest)
    (e2 : HttpRequest → ExecResult GetPropertyVersionsResponse)
    (r3 : GetPropertyVersionRequest)
    (e3 : HttpRequest → ExecResult GetPropertyVersionsResponse)
    (r4 : CreatePropertyVersionRequest)
    (e4 : HttpRequest → ExecResult CreatePropertyVersionResponse)
    (h1 : r1.Validate = none) (h2 : r2.Validate = none)
    (h3 : r3.Validate = none) (h4 : r4.Validate = none) :
    (GetPropertyVersions p r1 e1).dispatched.map HttpRequest.headers =
      some [("PAPI-Use-Prefixes", castToString p.usePrefixes)] ∧
    (GetLatestVersion p r2 e2).dispatched.map HttpRequest.headers =
      some [("PAPI-Use-Prefixes", castToString p.usePrefixes)] ∧
    (GetPropertyVersion p r3 e3).dispatched.map HttpRequest.headers =
      some [("PAPI-Use-Prefixes", castToString p.usePrefixes)] ∧
    (CreatePropertyVersion p r4 e4).dispatched.map HttpRequest.headers =
      some [("PAPI-Use-Prefixes", castToString p.usePrefixes)] := by
  rw [getPropertyVersions_dispatched p r1 e1 h1, getLatestVersion_dispatched p r2 e2 h2,
    getPropertyVersion_dispatched p r3 e3 h3, createPropertyVersion_dispatched p r4 e4 h4]
  exact ⟨rfl, rfl, rfl, rfl⟩

/-- Witness for C7 on concrete valid requests. -/
theorem header_use_prefixes_witness :
    sampleVersionsRequest.Validate = none ∧ sampleLatestRequest.Validate = none ∧
    sampleVersionRequest.Validate = none ∧ sampleCreateRequest.Validate = none ∧
    ((GetPropertyVersions samplePapi sampleVersionsRequest execGet404).dispatched.map
        HttpRequest.headers = some [("PAPI-Use-Prefixes", castToString samplePapi.usePrefixes)] ∧
    (GetLatestVersion samplePapi sampleLatestRequest execGet404).dispatched.map
        HttpRequest.headers = some [("PAPI-Use-Prefixes", castToString samplePapi.usePrefixes)] ∧
    (GetPropertyVersion samplePapi sampleVersionRequest execGet404).dispatched.map
        HttpRequest.headers = some [("PAPI-Use-Prefixes", castToString samplePapi.usePrefixes)] ∧
    (CreatePropertyVersion samplePapi sampleCreateRequest execCreate404).dispatched.map
        HttpRequest.headers = some [("PAPI-Use-Prefixes", castToString samplePapi.usePrefixes)]) :=
  ⟨rfl, rfl, rfl, rfl,
    header_use_prefixes samplePapi sampleVersionsRequest execGet404
      sampleLatestRequest execGet404 sampleVersionRequest execGet404
      sampleCreateRequest execCreate404 rfl rfl rfl rfl⟩

/-- `Errors.Filter` over two fields is nil iff both rules passed. -/
theorem filterErrors_pair_none (f1 f2 : String) (o1 o2 : Option String) :
    filterErrors [(f1, o1), (f2, o2)] = none ↔ o1 = none ∧ o2 = none := by
  cases o1 <;> cases o2 <;> simp [filterErrors]

/-- The `Required` rule on a string passes iff the string is non-empty. -/
theorem requiredStringRule_none (s : String) : requiredStringRule s = none ↔ s ≠ "" := by
  by_cases h : s = "" <;> simp [requiredStringRule, h]

/-- The `In` rule passes iff the value is empty or a member of the list. -/
theorem inRule_none (a : List String) (s : String) :
    inRule a s = none ↔ (s = "" ∨ a.contains s = true) := by
  by_cases h : s = "" <;> by_cases hc : a.contains s <;> simp [inRule, h, hc]

/-- Membership in a two-element string list, as a disjunction. -/
theorem contains_pair (a b s : String) : ([a, b].contains s = true) ↔ (s = a ∨ s = b) := by
  simp [List.contains, List.any_cons, List.any_nil, beq_iff_eq]

/-- C8: `GetLatestVersionRequest.Validate` treats ActivatedOn as optional:
validation passes exactly when PropertyID is non-empty and ActivatedOn is
empty, "PRODUCTION" or "STAGING"; in particular an empty ActivatedOn is
accepted. -/
theorem getLatestVersion_validate_iff (r : GetLatestVersionRequest) :
    r.Validate = none ↔
      (r.PropertyID ≠ "" ∧
        (r.ActivatedOn = "" ∨ r.ActivatedOn = VersionProduction ∨
          r.ActivatedOn = VersionStaging)) := by
  rw [GetLatestVersionRequest.Validate, filterErrors_pair_none, requiredStringRule_none,
    inRule_none, contains_pair]

/-- C9: the `Required` rule treats 0 as missing, so `GetPropertyVersion` with
PropertyVersion 0 and `CreatePropertyVersion` with CreateFromVersion 0 always
fail validation with an error wrapping `ErrStructValidation`, dispatching
nothing. -/
theorem version_zero_rejected
    (p : Papi)
    (r3 : GetPropertyVersionRequest)
    (e3 : HttpRequest → ExecResult GetPropertyVersionsResponse)
    (r4 : CreatePropertyVersionRequest)
    (e4 : HttpRequest → ExecResult CreatePropertyVersionResponse)
    (h3 : r3.PropertyVersion = 0) (h4 : r4.Version.CreateFromVersion = 0) :
    (isStructValidationErr (GetPropertyVersion p r3 e3).result = true ∧
      (GetPropertyVersion p r3 e3).dispatched = none) ∧
    (isStructValidationErr (CreatePropertyVersion p r4 e4).result = true ∧
      (CreatePropertyVersion p r4 e4).dispatched = none) := by
  have v3 : r3.Validate.isSome := by
    cases hq : requiredStringRule r3.PropertyID <;>
      simp [GetPropertyVersionRequest.Validate, requiredIntRule, h3, filterErrors, hq]
  have v4 : r4.Validate.isSome := by
    cases hq : requiredStringRule r4.PropertyID <;>
      simp [CreatePropertyVersionRequest.Validate, PropertyVersionCreate.Validate,
        nestedRule, requiredIntRule, h4, filterErrors, renderErrors, hq]
  obtain ⟨f3, v3⟩ := Option.isSome_iff_exists.mp v3
  obtain ⟨f4, v4⟩ := Option.isSome_iff_exists.mp v4
  refine ⟨⟨?_, ?_⟩, ⟨?_, ?_⟩⟩ <;>
    simp [GetPropertyVersion, CreatePropertyVersion, v3, v4, isStructValidationErr]

def zeroVersionRequest : GetPropertyVersionRequest := ⟨"prp_175780", 0, "ctr_1", "grp_1"⟩

def zeroCreateRequest : CreatePropertyVersionRequest := ⟨"prp_175780", "ctr_1", "grp_1", ⟨0, ""⟩⟩

/-- Witness for C9 on concrete requests carrying version 0. -/
theorem version_zero_rejected_witness :
    zeroVersionRequest.PropertyVersion = 0 ∧
    zeroCreateRequest.Version.CreateFromVersion = 0 ∧
    ((isStructValidationErr (GetPropertyVersion samplePapi zeroVersionRequest execGet404).result = true ∧
      (GetPropertyVersion samplePapi zeroVersionRequest execGet404).dispatched = none) ∧
    (isStructValidationErr (CreatePropertyVersion samplePapi zeroCreateRequest execCreate404).result = true ∧
      (CreatePropertyVersion samplePapi zeroCreateRequest execCreate404).dispatched = none)) :=
  ⟨rfl, rfl,
    version_zero_rejected samplePapi zeroVersionRequest execGet404
      zeroCreateRequest execCreate404 rfl rfl⟩

/-- C10: `CreatePropertyVersion` dispatches a POST request with a nil body,
and the dispatched request does not depend on the `Version` field: it is used
only during validation and is never serialized into the outbound request. -/
theorem create_nil_body
    (p : Papi) (r : CreatePropertyVersionRequest) (v : PropertyVersionCreate)
    (e : HttpRequest → ExecResult CreatePropertyVersionResponse)
    (h : r.Validate = none)
    (hv : CreatePropertyVersionRequest.Validate { r with Version := v } = none) :
    (CreatePropertyVersion p r e).dispatched =
      some (builtRequest p "POST" (createPropertyVersionURL r)) ∧
    (CreatePropertyVersion p { r with Version := v } e).dispatched =
      (CreatePropertyVersion p r e).dispatched ∧
    (builtRequest p "POST" (createPropertyVersionURL r)).body = none ∧
    (builtRequest p "POST" (createPropertyVersionURL r)).method = "POST" := by
  refine ⟨createPropertyVersion_dispatched p r e h, ?_, rfl, rfl⟩
  rw [createPropertyVersion_dispatched p r e h,
    createPropertyVersion_dispatched p { r with Version := v } e hv]
  rfl

/-- Witness for C10: two valid create requests differing only in Version. -/
theorem create_nil_body_witness :
    sampleCreateRequest.Validate = none ∧
    CreatePropertyVersionRequest.Validate
      { sampleCreateRequest with Version := ⟨5, "etag5"⟩ } = none ∧
    ((CreatePropertyVersion samplePapi sampleCreateRequest execCreate201).dispatched =
      some (builtRequest samplePapi "POST" (createPropertyVersionURL sampleCreateRequest)) ∧
    (CreatePropertyVersion samplePapi
        { sampleCreateRequest with Version := ⟨5, "etag5"⟩ } execCreate201).dispatched =
      (CreatePropertyVersion samplePapi sampleCreateRequest execCreate201).dispatched ∧
    (builtRequest samplePapi "POST" (createPropertyVersionURL sampleCreateRequest)).body = none ∧
    (builtRequest samplePapi "POST"
        (createPropertyVersionURL sampleCreateRequest)).method = "POST") :=
  ⟨rfl, rfl,
    create_nil_body samplePapi sampleCreateRequest ⟨5, "etag5"⟩ execCreate201 rfl rfl⟩

end PropertyVersion
